import Mathlib

/-!
Verification development for the MongoDB backup tool
(src/mongo-scripts/mongo-backup.py).

The script is single-threaded and synchronous, so its behaviour is modelled
as pure functions: the interactive checkbox menu becomes an explicit
state-transition function driven by a list of key events, the backup
orchestrator becomes a fold over the selected database list parameterised by
the outcome of each external `mongodump` invocation, and filesystem /
subprocess side effects are recorded as an explicit event trace.
-/

namespace MongoBackup

/-! ## Backup orchestrator (run_mongodump / create_zip_archive / backup_databases) -/

/-- Outcome of one `mongodump` subprocess invocation, as classified by
`run_mongodump` (lines 211-228): exit status zero (`success`),
`subprocess.CalledProcessError` for a nonzero exit (`processFailed`), or
`FileNotFoundError` when the `mongodump` executable is absent
(`toolNotInstalled`). -/
inductive DumpOutcome where
  | success
  | processFailed
  | toolNotInstalled
deriving DecidableEq, Repr

/-- Observable side effects of a run.  `makedirs p` records
`os.makedirs(p, exist_ok=True)` for the path with components `p`;
`invokeDump db` records one `subprocess.run(["mongodump", ...])` attempt for
database `db`; `errProcess` / `errToolMissing` record the two distinct error
messages printed to stderr by `run_mongodump` (lines 223 and 227). -/
inductive Event where
  | makedirs (path : List String)
  | invokeDump (db : String)
  | errProcess (db : String)
  | errToolMissing (db : String)
deriving DecidableEq, Repr

/-- `run_mongodump` (lines 197-228): builds `output_dir/timestamp/database`,
creates it with `os.makedirs(..., exist_ok=True)`, then runs `mongodump`.
Returns `True` exactly when the subprocess exits with status zero; both the
nonzero-exit and the missing-executable cases print a distinct error and
return `False`.  The subprocess attempt itself (`invokeDump`) happens in
every case — `FileNotFoundError` is raised by `subprocess.run`. -/
def run_mongodump (output_dir timestamp db : String) (outcome : DumpOutcome) :
    Bool × List Event :=
  let dirEv := Event.makedirs [output_dir, timestamp, db]
  match outcome with
  | DumpOutcome.success => (true, [dirEv, Event.invokeDump db])
  | DumpOutcome.processFailed => (false, [dirEv, Event.invokeDump db, Event.errProcess db])
  | DumpOutcome.toolNotInstalled => (false, [dirEv, Event.invokeDump db, Event.errToolMissing db])

/-- The per-database loop of `backup_databases` (lines 245-252): walks the
selected databases in order, counting successes, collecting failed names in
encounter order, and accumulating the event trace.  Each list element pairs a
database name with the outcome its `mongodump` invocation would have. -/
def backupLoop (output_dir timestamp : String) :
    List (String × DumpOutcome) → Nat × List String × List Event
  | [] => (0, [], [])
  | (db, outcome) :: rest =>
    let r := run_mongodump output_dir timestamp db outcome
    let t := backupLoop output_dir timestamp rest
    (if r.1 then t.1 + 1 else t.1,
     if r.1 then t.2.1 else db :: t.2.1,
     r.2 ++ t.2.2)

/-- `create_zip_archive` (lines 176-195): writes every file under the
timestamp directory into `output_dir/zip_filename`; each entry's arcname is
the file's path relative to `os.path.dirname(source_dir)`, i.e. the
timestamp component followed by the file's path relative to the timestamp
directory (`files` holds those relative paths).  `ioError` models any
exception raised inside the `try` block; in that case the function prints
the error and returns `None`, otherwise it returns the archive path. -/
def create_zip_archive (output_dir timestamp zip_filename : String)
    (files : List (List String)) (ioError : Bool) :
    Option (String × List (List String)) :=
  if ioError then none
  else some (output_dir ++ "/" ++ zip_filename, files.map fun f => timestamp :: f)

/-- The uncompressed per-run directory `os.path.join(output_dir, timestamp)`
(line 237). -/
def backup_dir_path (output_dir timestamp : String) : String :=
  output_dir ++ "/" ++ timestamp

/-- Observable result of one `backup_databases` run: the loop tallies, the
archive path (if any), whether `shutil.rmtree` was invoked and whether the
directory was actually removed, the cleanup warning, and the fields of the
printed summary (lines 270-281). -/
structure RunResult where
  success_count : Nat
  failed_dbs : List String
  events : List Event
  zip_path : Option String
  zipErrorReported : Bool
  rmtreeInvoked : Bool
  dirRemoved : Bool
  cleanupWarning : Bool
  summaryAttempted : Nat
  summarySucceeded : Nat
  summaryFailedNames : List String
  summaryLocation : String
deriving DecidableEq, Repr

/-- Body of `backup_databases` (lines 236-281) for a non-empty selection:
run the per-database loop; if `create_zip` was requested and at least one
database succeeded, attempt the archive; if the archive was created, invoke
`shutil.rmtree` on the uncompressed directory (`rmtreeOk` models whether that
call succeeds — on failure only a warning is printed, line 268); finally
build the summary, whose location is the archive path when
`create_zip and zip_path` holds and the uncompressed directory otherwise. -/
def backup_databases_core (output_dir timestamp : String)
    (dbsOut : List (String × DumpOutcome)) (create_zip ioError : Bool)
    (files : List (List String)) (rmtreeOk : Bool) (zip_filename : String) :
    RunResult :=
  let t := backupLoop output_dir timestamp dbsOut
  let success_count := t.1
  let failed_dbs := t.2.1
  let zipRes :=
    if create_zip && decide (0 < success_count) then
      create_zip_archive output_dir timestamp zip_filename files ioError
    else none
  let zip_path := zipRes.map Prod.fst
  let rmtreeInvoked := zip_path.isSome
  { success_count := success_count
    failed_dbs := failed_dbs
    events := t.2.2
    zip_path := zip_path
    zipErrorReported := (create_zip && decide (0 < success_count)) && zip_path.isNone
    rmtreeInvoked := rmtreeInvoked
    dirRemoved := rmtreeInvoked && rmtreeOk
    cleanupWarning := rmtreeInvoked && !rmtreeOk
    summaryAttempted := dbsOut.length
    summarySucceeded := success_count
    summaryFailedNames := failed_dbs
    summaryLocation :=
      if create_zip && zip_path.isSome then zip_path.getD ""
      else backup_dir_path output_dir timestamp }

/-- `backup_databases` (lines 230-281): returns early (`None` here) when the
database list is empty (line 232), otherwise performs the run. -/
def backup_databases (output_dir timestamp : String)
    (dbsOut : List (String × DumpOutcome)) (create_zip ioError : Bool)
    (files : List (List String)) (rmtreeOk : Bool) (zip_filename : String) :
    Option RunResult :=
  if dbsOut.isEmpty then none
  else some (backup_databases_core output_dir timestamp dbsOut create_zip ioError
      files rmtreeOk zip_filename)

/-- Databases for which a `mongodump` subprocess invocation was attempted,
in trace order. -/
def invokedDbs (evs : List Event) : List String :=
  evs.filterMap fun e =>
    match e with
    | Event.invokeDump db => some db
    | _ => none

/-- Number of `mongodump` subprocess invocation attempts in a trace. -/
def invocationCount (evs : List Event) : Nat :=
  evs.countP fun e =>
    match e with
    | Event.invokeDump _ => true
    | _ => false

/-- All non-empty ancestor paths of a path, the path itself included:
`os.makedirs` creates every missing ancestor. -/
def ancestorDirs : List String → List (List String)
  | [] => []
  | a :: rest => [a] :: (ancestorDirs rest).map (a :: ·)

/-- Directories guaranteed to exist after a trace: every ancestor of every
`makedirs` path. -/
def dirsCreated (evs : List Event) : List (List String) :=
  evs.flatMap fun e =>
    match e with
    | Event.makedirs p => ancestorDirs p
    | _ => []

/-! ## Checkbox menu (checkbox_menu, lines 53-149) -/

/-- Keys the input handler (lines 131-149) distinguishes.  `quit` covers
`q`, `Q`, ESC and `KeyboardInterrupt`; `toggle` is Space; `selectAll` is
`a`/`A`; `selectNone` is `n`/`N`; `up`/`down` are arrow or `k`/`j`;
`pageUp`/`pageDown` are PPAGE/NPAGE; `enter` is Enter; `other` is any
unrecognised key (no branch matches, the loop just redraws). -/
inductive Key where
  | quit
  | toggle
  | selectAll
  | selectNone
  | up
  | down
  | pageUp
  | pageDown
  | enter
  | other
deriving DecidableEq, Repr

/-- Mutable state of the menu loop: the parallel selection array and the
cursor row.  The cursor is an integer because the arithmetic in the source
is integer arithmetic — nothing in the code forces it to stay non-negative. -/
structure MenuState where
  selected : List Bool
  current_row : Int
deriving DecidableEq, Repr

/-- Initial state (lines 59-60): everything selected, cursor at row 0. -/
def initMenu (databases : List String) : MenuState :=
  ⟨List.replicate databases.length true, 0⟩

/-- `max_visible = height - start_row - 3` with `start_row = 4`
(lines 85-86).  Negative when the terminal has fewer than 7 rows. -/
def max_visible (height : Int) : Int :=
  height - 4 - 3

/-- Python list indexing `l[i]` for the selection array: a negative index
wraps once from the end; an index out of range raises `IndexError`
(modelled as `none`). -/
def pyIdx (len : Nat) (i : Int) : Option Nat :=
  let j := if i < 0 then i + len else i
  if 0 ≤ j ∧ j < len then some j.toNat else none

/-- The list comprehension of line 148:
`[db for idx, db in enumerate(databases) if selected[idx]]`, under the loop
invariant that `selected` has the same length as `databases`. -/
def selectedNames (databases : List String) (selected : List Bool) : List String :=
  (databases.zip selected).filterMap fun p => if p.2 then some p.1 else none

/-- Result of one pass through the key handler: keep looping with a new
state, leave the loop with a result (`none` models Python's `None`,
i.e. cancellation), or raise `IndexError` from `selected[current_row]`. -/
inductive StepResult where
  | next (s : MenuState)
  | finished (r : Option (List String))
  | err
deriving DecidableEq, Repr

/-- One iteration of the key handler (lines 131-149).  `mv` is the
`max_visible` value computed from the terminal height earlier in the same
loop iteration (line 86) and used by the page keys. -/
def menuStep (databases : List String) (mv : Int) (s : MenuState) (k : Key) :
    StepResult :=
  match k with
  | Key.quit => StepResult.finished none
  | Key.toggle =>
    match pyIdx s.selected.length s.current_row with
    | some j =>
      StepResult.next ⟨s.selected.set j (! s.selected.getD j false), s.current_row⟩
    | none => StepResult.err
  | Key.selectAll => StepResult.next ⟨List.replicate databases.length true, s.current_row⟩
  | Key.selectNone => StepResult.next ⟨List.replicate databases.length false, s.current_row⟩
  | Key.up => StepResult.next ⟨s.selected, max 0 (s.current_row - 1)⟩
  | Key.down => StepResult.next ⟨s.selected, min ((databases.length : Int) - 1) (s.current_row + 1)⟩
  | Key.pageUp => StepResult.next ⟨s.selected, max 0 (s.current_row - mv)⟩
  | Key.pageDown => StepResult.next ⟨s.selected, min ((databases.length : Int) - 1) (s.current_row + mv)⟩
  | Key.enter =>
    let sdbs := selectedNames databases s.selected
    StepResult.finished (if sdbs.isEmpty then none else some sdbs)
  | Key.other => StepResult.next s

/-- Outcome of feeding a finite key sequence to the loop: still waiting for
input in state `s`, returned with result `r`, or crashed. -/
inductive MenuOutcome where
  | pending (s : MenuState)
  | finished (r : Option (List String))
  | errored
deriving DecidableEq, Repr

/-- Run the menu loop over a finite key sequence. -/
def runMenu (databases : List String) (mv : Int) (s : MenuState) :
    List Key → MenuOutcome
  | [] => MenuOutcome.pending s
  | k :: ks =>
    match menuStep databases mv s k with
    | StepResult.next s' => runMenu databases mv s' ks
    | StepResult.finished r => MenuOutcome.finished r
    | StepResult.err => MenuOutcome.errored

/-! ## Menu rendering (lines 67-123) -/

/-- One `stdscr.addstr(y, x, s)` call (attribute arguments are irrelevant
to geometry and dropped). -/
structure AddStr where
  y : Int
  x : Int
  s : String
deriving DecidableEq, Repr

/-- Python string slice `s[:k]` (used as `[:width-1]` and `[:width-3]`):
a negative bound counts from the end, clamped at 0. -/
def pyTakeStr (s : String) (k : Int) : String :=
  if 0 ≤ k then String.mk (s.data.take k.toNat)
  else String.mk (s.data.take (s.data.length - (-k).toNat))

/-- Normalise one bound of a Python slice on a list of length `n`. -/
def pyBound (n : Nat) (i : Int) : Nat :=
  (max 0 (min (if i < 0 then i + n else i) (n : Int))).toNat

/-- Python list slice `l[a:b]`. -/
def pySlice {α : Type} (l : List α) (a b : Int) : List α :=
  let lo := pyBound l.length a
  let hi := pyBound l.length b
  (l.drop lo).take (hi - lo)

/-- Reading `selected[actual_idx]` during rendering (lines 100, 111): a
negative index wraps once from the end; the in-range case is the one the
loop invariant guarantees (out of range defaults to `false` here, where the
real code would raise). -/
def pyGetBool (l : List Bool) (i : Int) : Bool :=
  let j := if i < 0 then i + l.length else i
  if 0 ≤ j then l.getD j.toNat false else false

/-- The header title (line 72), 33 characters long. -/
def title : String := "MongoDB Backup - Select Databases"

/-- The instruction line (line 79). -/
def instructionsLine : String :=
  "↑/↓ or k/j: Navigate  |  Space: Toggle  |  a: Select All  |  n: Select None  |  Enter: Confirm  |  q: Quit"

/-- The horizontal separator `"─" * (width - 1)` (lines 82 and 120). -/
def hbar (width : Nat) : String :=
  String.mk (List.replicate (width - 1) '─')

/-- The footer `f"Selected: {selected_count}/{len(databases)} databases"`
(line 119). -/
def footerText (selCount total : Nat) : String :=
  "Selected: " ++ Nat.repr selCount ++ "/" ++ Nat.repr total ++ " databases"

/-- The item rows (lines 98-115): the cursor row and unselected rows are
drawn truncated to `width-3` at x=2; a selected non-cursor row draws the
checkbox at x=2 and then the database name, untruncated, at
x = 2 + len(checkbox) + 1 = 6. -/
def itemOps (width : Int) (selected : List Bool) (current_row scroll_offset : Int) :
    Nat → List String → List AddStr
  | _, [] => []
  | idx, db :: rest =>
    let actual : Int := (idx : Int) + scroll_offset
    let checkbox := if pyGetBool selected actual then "[✓]" else "[ ]"
    let line := checkbox ++ " " ++ db
    let y : Int := 4 + (idx : Int)
    (if actual == current_row then
      [AddStr.mk y 2 (pyTakeStr line (width - 3))]
    else if pyGetBool selected actual then
      [AddStr.mk y 2 checkbox, AddStr.mk y 6 db]
    else
      [AddStr.mk y 2 (pyTakeStr line (width - 3))]) ++
    itemOps width selected current_row scroll_offset (idx + 1) rest

/-- The full sequence of `addstr` calls of one frame (lines 71-121), in
program order: centered header, truncated instruction line, separator, the
visible window of item rows, bottom separator, centered footer.
`(width - len(s)) // 2` is Python floor division, hence `Int.fdiv`. -/
def renderOps (height width : Nat) (databases : List String)
    (selected : List Bool) (current_row : Int) : List AddStr :=
  let W : Int := width
  let H : Int := height
  let n : Int := databases.length
  let mv := max_visible H
  let scroll_offset : Int :=
    if current_row < mv.fdiv 2 then 0
    else if current_row > n - mv.fdiv 2 then max 0 (n - mv)
    else current_row - mv.fdiv 2
  let visible := pySlice databases scroll_offset (scroll_offset + mv)
  let footer := footerText (selected.countP id) databases.length
  [AddStr.mk 0 ((W - (title.length : Int)).fdiv 2) title,
   AddStr.mk 1 0 (pyTakeStr instructionsLine (W - 1)),
   AddStr.mk 2 0 (hbar width)] ++
  itemOps W selected current_row scroll_offset 0 visible ++
  [AddStr.mk (H - 2) 0 (hbar width),
   AddStr.mk (H - 1) ((W - (footer.length : Int)).fdiv 2) footer]

/-- An `addstr` call raises `curses.error` when its start coordinates lie
outside the window. -/
def addstrCrashes (height width : Nat) (op : AddStr) : Bool :=
  decide (op.y < 0) || decide (op.x < 0) ||
  decide ((height : Int) ≤ op.y) || decide ((width : Int) ≤ op.x)

/-- An `addstr` call whose text extends past the right margin wraps onto
the next line (curses wraps rather than truncating). -/
def addstrWraps (width : Nat) (op : AddStr) : Bool :=
  decide ((width : Int) < op.x + (op.s.length : Int))

/-- A frame renders cleanly when no call crashes and no call wraps. -/
def rendersWithoutCrashOrWrap (height width : Nat) (databases : List String)
    (selected : List Bool) (current_row : Int) : Bool :=
  (renderOps height width databases selected current_row).all fun op =>
    !(addstrCrashes height width op) && !(addstrWraps width op)

/-! ## Filename generator (generate_human_readable_filename, lines 151-174) -/

/-- `now.strftime('%B').lower()`: the full English month name in lowercase
(months numbered 1-12). -/
def monthNameLower : Nat → String
  | 1 => "january"
  | 2 => "february"
  | 3 => "march"
  | 4 => "april"
  | 5 => "may"
  | 6 => "june"
  | 7 => "july"
  | 8 => "august"
  | 9 => "september"
  | 10 => "october"
  | 11 => "november"
  | 12 => "december"
  | _ => ""

/-- Python's `f"{minute:02d}"`: zero-pad to two digits. -/
def pad2 (n : Nat) : String :=
  if n < 10 then "0" ++ Nat.repr n else Nat.repr n

/-- `generate_human_readable_filename` (lines 151-174), with the wall-clock
fields passed explicitly: the 12-hour conversion is the source's if-chain. -/
def generate_human_readable_filename (month day year hour minute : Nat) : String :=
  let m := monthNameLower month
  let hp : Nat × String :=
    if hour = 0 then (12, "am")
    else if hour < 12 then (hour, "am")
    else if hour = 12 then (12, "pm")
    else (hour - 12, "pm")
  m ++ "_" ++ Nat.repr day ++ "_" ++ Nat.repr year ++ "_" ++ Nat.repr hp.1 ++
    "_" ++ pad2 minute ++ "_" ++ hp.2 ++ ".zip"

/-- Modelled from the spec: the Filename Generator's description in the
specification, with hour 0 and 12 handled through `hour % 12 = 0 → 12` and
am/pm decided by `hour < 12`.  Used as the refinement target for the code's
if-chain. -/
def filenameSpec (month day year hour minute : Nat) : String :=
  let hour_12 := if hour % 12 = 0 then 12 else hour % 12
  let period := if hour < 12 then "am" else "pm"
  monthNameLower month ++ "_" ++ Nat.repr day ++ "_" ++ Nat.repr year ++ "_" ++
    Nat.repr hour_12 ++ "_" ++ pad2 minute ++ "_" ++ period ++ ".zip"

/-! ## Helper lemmas: selection array -/

theorem getD_set_self : ∀ (l : List Bool) (i : Nat) (a d : Bool), i < l.length →
    (l.set i a).getD i d = a
  | [], i, _, _, h => absurd h (by simp)
  | _ :: _, 0, _, _, _ => rfl
  | _ :: bs, i + 1, a, d, h => getD_set_self bs i a d (by simpa using h)

theorem set_getD_self : ∀ (l : List Bool) (i : Nat) (d : Bool), i < l.length →
    l.set i (l.getD i d) = l
  | [], i, _, h => absurd h (by simp)
  | _ :: _, 0, _, _ => rfl
  | b :: bs, i + 1, d, h => congrArg (b :: ·) (set_getD_self bs i d (by simpa using h))

theorem selectedNames_replicate_true : ∀ databases : List String,
    selectedNames databases (List.replicate databases.length true) = databases
  | [] => rfl
  | d :: ds => by
    have ih := selectedNames_replicate_true ds
    simp only [selectedNames, List.length_cons, List.replicate_succ, List.zip_cons_cons,
      List.filterMap_cons] at ih ⊢
    simpa using ih

theorem selectedNames_all_false : ∀ (databases : List String) (sel : List Bool),
    (∀ b ∈ sel, b = false) → selectedNames databases sel = []
  | [], _, _ => by simp [selectedNames]
  | _ :: _, [], _ => by simp [selectedNames]
  | d :: ds, b :: bs, h => by
    have hb : b = false := h b (by simp)
    have ih := selectedNames_all_false ds bs fun x hx => h x (by simp [hx])
    simp only [selectedNames, List.zip_cons_cons, List.filterMap_cons] at ih ⊢
    simp [hb, ih]

/-! ## Helper lemmas: cursor bounds -/

theorem menuStep_cursor_bounds (databases : List String) (mv : Int) (s s' : MenuState)
    (k : Key) (hn : databases ≠ []) (hmv : 0 ≤ mv)
    (h0 : 0 ≤ s.current_row) (h1 : s.current_row < (databases.length : Int))
    (hstep : menuStep databases mv s k = StepResult.next s') :
    0 ≤ s'.current_row ∧ s'.current_row < (databases.length : Int) := by
  have hnpos : (0 : Int) < (databases.length : Int) := by
    exact_mod_cast List.length_pos.mpr hn
  cases k
  case quit => simp [menuStep] at hstep
  case toggle =>
    rcases hpy : pyIdx s.selected.length s.current_row with _ | j
    · unfold menuStep at hstep; rw [hpy] at hstep; cases hstep
    · unfold menuStep at hstep; rw [hpy] at hstep; cases hstep; exact ⟨h0, h1⟩
  case selectAll => unfold menuStep at hstep; cases hstep; exact ⟨h0, h1⟩
  case selectNone => unfold menuStep at hstep; cases hstep; exact ⟨h0, h1⟩
  case up =>
    unfold menuStep at hstep; cases hstep
    refine ⟨?_, ?_⟩ <;> (simp only [max_def]; split_ifs <;> omega)
  case down =>
    unfold menuStep at hstep; cases hstep
    refine ⟨?_, ?_⟩ <;> (simp only [min_def]; split_ifs <;> omega)
  case pageUp =>
    unfold menuStep at hstep; cases hstep
    refine ⟨?_, ?_⟩ <;> (simp only [max_def]; split_ifs <;> omega)
  case pageDown =>
    unfold menuStep at hstep; cases hstep
    refine ⟨?_, ?_⟩ <;> (simp only [min_def]; split_ifs <;> omega)
  case enter => simp [menuStep] at hstep
  case other => unfold menuStep at hstep; cases hstep; exact ⟨h0, h1⟩

theorem runMenu_cursor_bounds (databases : List String) (mv : Int)
    (hn : databases ≠ []) (hmv : 0 ≤ mv) :
    ∀ (keys : List Key) (s s' : MenuState),
      0 ≤ s.current_row → s.current_row < (databases.length : Int) →
      runMenu databases mv s keys = MenuOutcome.pending s' →
      0 ≤ s'.current_row ∧ s'.current_row < (databases.length : Int)
  | [], s, s', h0, h1, hrun => by cases hrun; exact ⟨h0, h1⟩
  | k :: ks, s, s', h0, h1, hrun => by
    unfold runMenu at hrun
    cases hstep : menuStep databases mv s k with
    | next s1 =>
      rw [hstep] at hrun
      have hb := menuStep_cursor_bounds databases mv s s1 k hn hmv h0 h1 hstep
      exact runMenu_cursor_bounds databases mv hn hmv ks s1 s' hb.1 hb.2 hrun
    | finished r => rw [hstep] at hrun; cases hrun
    | err => rw [hstep] at hrun; cases hrun

/-! ## Checkbox Selector claims -/

/-- C4 (counterexample): with a single database and terminal height 6 the
page size `max_visible` is `-1`, and one page-down takes the cursor from 0
to `min(len-1, 0 + (-1)) = -1`, outside `[0, N-1]` — the claimed invariant
fails for small terminal heights. -/
theorem C4_pagedown_negative_cursor :
    runMenu ["a"] (max_visible 6) (initMenu ["a"]) [Key.pageDown] =
      MenuOutcome.pending ⟨[true], -1⟩ ∧ ¬ (0 : Int) ≤ -1 := by
  constructor
  · decide
  · decide

/-- C4 (amended): for every list of N ≥ 1 databases and every finite key
sequence, as long as the terminal height is at least 7 (so that the page
size `max_visible = height - 7` is non-negative), the cursor stays within
`[0, N-1]` after every transition of the Checkbox Selector. -/
theorem C4_cursor_in_range (databases : List String) (height : Int)
    (keys : List Key) (s' : MenuState) (hn : databases ≠ []) (hh : 7 ≤ height)
    (hrun : runMenu databases (max_visible height) (initMenu databases) keys =
      MenuOutcome.pending s') :
    0 ≤ s'.current_row ∧ s'.current_row < (databases.length : Int) := by
  have hmv : 0 ≤ max_visible height := by unfold max_visible; omega
  have hnpos : (0 : Int) < (databases.length : Int) := by
    exact_mod_cast List.length_pos.mpr hn
  exact runMenu_cursor_bounds databases (max_visible height) hn hmv keys
    (initMenu databases) s' le_rfl hnpos hrun

/-- C4 witness: a concrete run (two databases, height 20, one page-down)
whose resulting cursor the amended theorem bounds. -/
theorem C4_cursor_in_range_witness :
    0 ≤ (MenuState.mk [true, true] 1).current_row ∧
      (MenuState.mk [true, true] 1).current_row < ((["a", "b"] : List String).length : Int) :=
  C4_cursor_in_range ["a", "b"] 20 [Key.pageDown] ⟨[true, true], 1⟩
    (List.cons_ne_nil _ _) (by decide) (by decide)

/-- C6: select-none followed by confirm returns the cancelled outcome
(Python `None`), not an empty list; and in general confirm returns the
cancelled outcome from any selection state with no `true` entry. -/
theorem C6_select_none_confirm_cancelled (databases : List String) (mv : Int)
    (s : MenuState) (_hn : databases ≠ []) :
    runMenu databases mv s [Key.selectNone, Key.enter] = MenuOutcome.finished none ∧
    ∀ sel : List Bool, (∀ b ∈ sel, b = false) →
      menuStep databases mv ⟨sel, s.current_row⟩ Key.enter = StepResult.finished none := by
  constructor
  · have hall : ∀ b ∈ List.replicate databases.length false, b = false :=
      fun b hb => List.eq_of_mem_replicate hb
    simp [runMenu, menuStep, selectedNames_all_false databases _ hall]
  · intro sel hsel
    simp [menuStep, selectedNames_all_false databases sel hsel]

/-- C6 witness: one database, select-none then confirm, and confirm from
the all-false selection state. -/
theorem C6_select_none_confirm_cancelled_witness :
    runMenu ["a"] (max_visible 20) (initMenu ["a"]) [Key.selectNone, Key.enter] =
      MenuOutcome.finished none ∧
    menuStep ["a"] (max_visible 20) ⟨[false], 0⟩ Key.enter = StepResult.finished none :=
  ⟨(C6_select_none_confirm_cancelled ["a"] (max_visible 20) (initMenu ["a"])
      (List.cons_ne_nil _ _)).1,
   (C6_select_none_confirm_cancelled ["a"] (max_visible 20) (initMenu ["a"])
      (List.cons_ne_nil _ _)).2 [false] (by decide)⟩

/-- C7: from any prior state, select-all followed by confirm returns exactly
the N input names in their original order. -/
theorem C7_select_all_confirm_returns_all (databases : List String) (mv : Int)
    (s : MenuState) (hn : databases ≠ []) :
    runMenu databases mv s [Key.selectAll, Key.enter] =
      MenuOutcome.finished (some databases) := by
  obtain ⟨d, ds, rfl⟩ := List.exists_cons_of_ne_nil hn
  have h7 := selectedNames_replicate_true (d :: ds)
  simp only [List.length_cons] at h7
  simp [runMenu, menuStep, h7]

/-- C7 witness: two databases, arbitrary prior state with the second
deselected and the cursor on row 1. -/
theorem C7_select_all_confirm_returns_all_witness :
    runMenu ["a", "b"] (max_visible 20) ⟨[true, false], 1⟩ [Key.selectAll, Key.enter] =
      MenuOutcome.finished (some ["a", "b"]) :=
  C7_select_all_confirm_returns_all ["a", "b"] (max_visible 20) ⟨[true, false], 1⟩
    (List.cons_ne_nil _ _)

/-- C9: toggling at a valid cursor position twice restores the original
state exactly (the same selection array and the same cursor). -/
theorem C9_double_toggle_identity (databases : List String) (mv : Int) (s : MenuState)
    (h0 : 0 ≤ s.current_row) (h1 : s.current_row < (s.selected.length : Int)) :
    ∃ s', menuStep databases mv s Key.toggle = StepResult.next s' ∧
      menuStep databases mv s' Key.toggle = StepResult.next s ∧
      s'.current_row = s.current_row := by
  obtain ⟨sel, c⟩ := s
  dsimp only at h0 h1
  have hceq : (c.toNat : Int) = c := Int.toNat_of_nonneg h0
  have hcn : c.toNat < sel.length := by
    have h1' := h1
    rw [← hceq] at h1'
    exact_mod_cast h1'
  have hj : pyIdx sel.length c = some c.toNat := by
    simp [pyIdx, not_lt.mpr h0, h0, h1]
  have hj2 : pyIdx (sel.set c.toNat (! sel.getD c.toNat false)).length c = some c.toNat := by
    rw [List.length_set sel c.toNat (! sel.getD c.toNat false)]
    exact hj
  have hsel2 : (sel.set c.toNat (! sel.getD c.toNat false)).set c.toNat
      (! (sel.set c.toNat (! sel.getD c.toNat false)).getD c.toNat false) = sel := by
    rw [getD_set_self sel c.toNat (! sel.getD c.toNat false) false hcn, Bool.not_not,
      List.set_set, set_getD_self sel c.toNat false hcn]
  refine ⟨⟨sel.set c.toNat (! sel.getD c.toNat false), c⟩, ?_, ?_, rfl⟩
  · simp [menuStep, hj]
  · simp only [menuStep]
    rw [hj2]
    exact congrArg (fun l => StepResult.next (MenuState.mk l c)) hsel2

/-- C9 witness: toggling row 0 of a two-element selection twice. -/
theorem C9_double_toggle_identity_witness :
    ∃ s', menuStep ["a", "b"] (max_visible 20) ⟨[true, false], 0⟩ Key.toggle =
        StepResult.next s' ∧
      menuStep ["a", "b"] (max_visible 20) s' Key.toggle =
        StepResult.next ⟨[true, false], 0⟩ ∧
      s'.current_row = (MenuState.mk [true, false] 0).current_row :=
  C9_double_toggle_identity ["a", "b"] (max_visible 20) ⟨[true, false], 0⟩
    (by decide) (by decide)

/-! ## Helper lemmas: backup loop -/

theorem backupLoop_success_count (o t : String) :
    ∀ l : List (String × DumpOutcome),
      (backupLoop o t l).1 = l.countP fun p => p.2 == DumpOutcome.success
  | [] => rfl
  | (db, outcome) :: rest => by
    have ih := backupLoop_success_count o t rest
    cases outcome <;> simp [backupLoop, run_mongodump, ih]

theorem backupLoop_failed (o t : String) :
    ∀ l : List (String × DumpOutcome),
      (backupLoop o t l).2.1 =
        (l.filter fun p => ! (p.2 == DumpOutcome.success)).map Prod.fst
  | [] => rfl
  | (db, outcome) :: rest => by
    have ih := backupLoop_failed o t rest
    cases outcome <;> simp [backupLoop, run_mongodump, ih]

theorem backupLoop_invoked (o t : String) :
    ∀ l : List (String × DumpOutcome),
      invokedDbs (backupLoop o t l).2.2 = l.map Prod.fst
  | [] => rfl
  | (db, outcome) :: rest => by
    have ih := backupLoop_invoked o t rest
    cases outcome <;>
      simp [backupLoop, run_mongodump, invokedDbs, List.filterMap_append] at ih ⊢ <;>
      exact ih

theorem backupLoop_invocations (o t : String) :
    ∀ l : List (String × DumpOutcome),
      invocationCount (backupLoop o t l).2.2 = l.length
  | [] => rfl
  | (db, outcome) :: rest => by
    have ih := backupLoop_invocations o t rest
    cases outcome <;>
      simp [backupLoop, run_mongodump, invocationCount, List.countP_append] at ih ⊢ <;>
      omega

theorem backupLoop_toolMissing (o t : String) :
    ∀ dbs : List String,
      (backupLoop o t (dbs.map fun d => (d, DumpOutcome.toolNotInstalled))).1 = 0 ∧
      (backupLoop o t (dbs.map fun d => (d, DumpOutcome.toolNotInstalled))).2.1 = dbs
  | [] => ⟨rfl, rfl⟩
  | d :: ds => by
    have ih := backupLoop_toolMissing o t ds
    simp [backupLoop, run_mongodump, ih.1, ih.2]

theorem dirsCreated_append (l₁ l₂ : List Event) :
    dirsCreated (l₁ ++ l₂) = dirsCreated l₁ ++ dirsCreated l₂ := by
  simp [dirsCreated]

theorem backupLoop_mem_db_dir (o t : String) :
    ∀ (l : List (String × DumpOutcome)) (p : String × DumpOutcome), p ∈ l →
      [o, t, p.1] ∈ dirsCreated (backupLoop o t l).2.2
  | [], p, hp => absurd hp (List.not_mem_nil p)
  | (db, outcome) :: rest, p, hp => by
    rcases List.mem_cons.mp hp with h | h
    · subst h
      cases outcome <;>
        simp [backupLoop, run_mongodump, dirsCreated, ancestorDirs, List.mem_append]
    · have ih := backupLoop_mem_db_dir o t rest p h
      have hev : (backupLoop o t ((db, outcome) :: rest)).2.2 =
          (run_mongodump o t db outcome).2 ++ (backupLoop o t rest).2.2 := rfl
      rw [hev, dirsCreated_append]
      exact List.mem_append_right _ ih

theorem backupLoop_mem_ts_dir (o t : String) (l : List (String × DumpOutcome))
    (hne : l ≠ []) : [o, t] ∈ dirsCreated (backupLoop o t l).2.2 := by
  obtain ⟨⟨db, outcome⟩, rest, rfl⟩ := List.exists_cons_of_ne_nil hne
  cases outcome <;>
    simp [backupLoop, run_mongodump, dirsCreated, ancestorDirs, List.mem_append]

theorem backupLoop_mem_errTool (o t : String) :
    ∀ (l : List (String × DumpOutcome)) (db : String),
      (db, DumpOutcome.toolNotInstalled) ∈ l →
      Event.errToolMissing db ∈ (backupLoop o t l).2.2
  | [], _, h => absurd h (List.not_mem_nil _)
  | (d, outcome) :: rest, db, h => by
    rcases List.mem_cons.mp h with h | h
    · injection h with h1 h2
      subst h1; subst h2
      simp [backupLoop, run_mongodump, List.mem_append]
    · have ih := backupLoop_mem_errTool o t rest db h
      cases outcome <;> simp [backupLoop, run_mongodump, List.mem_append, ih]

theorem backup_databases_eq_some (output_dir timestamp zip_filename : String)
    (dbsOut : List (String × DumpOutcome)) (hne : dbsOut ≠ [])
    (create_zip ioError : Bool) (files : List (List String)) (rmtreeOk : Bool) :
    backup_databases output_dir timestamp dbsOut create_zip ioError files rmtreeOk
        zip_filename =
      some (backup_databases_core output_dir timestamp dbsOut create_zip ioError files
        rmtreeOk zip_filename) := by
  cases dbsOut with
  | nil => exact absurd rfl hne
  | cons a l => rfl

theorem core_events (o t : String) (l : List (String × DumpOutcome)) (cz io : Bool)
    (f : List (List String)) (rm : Bool) (z : String) :
    (backup_databases_core o t l cz io f rm z).events = (backupLoop o t l).2.2 := rfl

theorem core_summarySucceeded (o t : String) (l : List (String × DumpOutcome))
    (cz io : Bool) (f : List (List String)) (rm : Bool) (z : String) :
    (backup_databases_core o t l cz io f rm z).summarySucceeded = (backupLoop o t l).1 :=
  rfl

theorem core_summaryFailedNames (o t : String) (l : List (String × DumpOutcome))
    (cz io : Bool) (f : List (List String)) (rm : Bool) (z : String) :
    (backup_databases_core o t l cz io f rm z).summaryFailedNames =
      (backupLoop o t l).2.1 := rfl

/-! ## Backup Orchestrator claims -/

/-- C1: every database in the non-empty selection is attempted, in input
order, regardless of earlier failures; the summary reports the total
attempted, the success count, the failed names in encounter order, and as
final location the archive path when one was produced, otherwise the
uncompressed timestamp directory. -/
theorem C1_backup_summary (output_dir timestamp zip_filename : String)
    (dbsOut : List (String × DumpOutcome)) (hne : dbsOut ≠ [])
    (create_zip ioError rmtreeOk : Bool) (files : List (List String)) :
    ∃ r, backup_databases output_dir timestamp dbsOut create_zip ioError files rmtreeOk
        zip_filename = some r ∧
      invokedDbs r.events = dbsOut.map Prod.fst ∧
      r.summaryAttempted = dbsOut.length ∧
      r.summarySucceeded = dbsOut.countP (fun p => p.2 == DumpOutcome.success) ∧
      r.summaryFailedNames =
        (dbsOut.filter fun p => ! (p.2 == DumpOutcome.success)).map Prod.fst ∧
      (∀ pth, r.zip_path = some pth → r.summaryLocation = pth) ∧
      (r.zip_path = none → r.summaryLocation = backup_dir_path output_dir timestamp) := by
  refine ⟨_, backup_databases_eq_some output_dir timestamp zip_filename dbsOut hne
      create_zip ioError files rmtreeOk, ?_, rfl, ?_, ?_, ?_, ?_⟩
  · rw [core_events]
    exact backupLoop_invoked output_dir timestamp dbsOut
  · rw [core_summarySucceeded]
    exact backupLoop_success_count output_dir timestamp dbsOut
  · rw [core_summaryFailedNames]
    exact backupLoop_failed output_dir timestamp dbsOut
  · intro pth hp
    simp only [backup_databases_core] at hp ⊢
    cases hcz : create_zip with
    | false => simp [hcz] at hp
    | true =>
      by_cases h0 : 0 < (backupLoop output_dir timestamp dbsOut).1
      · cases hio : ioError with
        | true => simp [hcz, h0, hio, create_zip_archive] at hp
        | false =>
          simp [hcz, h0, hio, create_zip_archive] at hp ⊢
          exact hp
      · simp [hcz, h0] at hp
  · intro hp
    simp only [backup_databases_core] at hp ⊢
    rw [hp]
    simp

/-- C2: `shutil.rmtree` on the uncompressed directory is invoked exactly
when archiving was requested, at least one database succeeded, and no I/O
error occurred while writing the archive; on an archive I/O error the
archive is abandoned, the error reported, and the directory retained; a
failing deletion only raises the cleanup warning and leaves every summary
field unchanged compared to a run where the deletion succeeds. -/
theorem C2_archive_cleanup (output_dir timestamp zip_filename : String)
    (dbsOut : List (String × DumpOutcome)) (hne : dbsOut ≠ [])
    (create_zip ioError rmtreeOk : Bool) (files : List (List String)) :
    ∃ r, backup_databases output_dir timestamp dbsOut create_zip ioError files rmtreeOk
        zip_filename = some r ∧
      r.rmtreeInvoked = (create_zip && decide (0 < r.summarySucceeded) && !ioError) ∧
      r.dirRemoved = (r.rmtreeInvoked && rmtreeOk) ∧
      r.cleanupWarning = (r.rmtreeInvoked && !rmtreeOk) ∧
      (ioError = true → r.zip_path = none ∧ r.rmtreeInvoked = false ∧
        r.dirRemoved = false) ∧
      (ioError = true → create_zip = true → 0 < r.summarySucceeded →
        r.zipErrorReported = true) ∧
      ∀ r', backup_databases output_dir timestamp dbsOut create_zip ioError files true
          zip_filename = some r' →
        r.summarySucceeded = r'.summarySucceeded ∧
        r.summaryFailedNames = r'.summaryFailedNames ∧
        r.summaryAttempted = r'.summaryAttempted ∧
        r.summaryLocation = r'.summaryLocation := by
  refine ⟨_, backup_databases_eq_some output_dir timestamp zip_filename dbsOut hne
      create_zip ioError files rmtreeOk, ?_, rfl, rfl, ?_, ?_, ?_⟩
  · simp only [backup_databases_core]
    cases create_zip <;> cases ioError <;>
      by_cases h0 : 0 < (backupLoop output_dir timestamp dbsOut).1 <;>
      simp [create_zip_archive, h0]
  · intro hio
    subst hio
    cases create_zip <;>
      by_cases h0 : 0 < (backupLoop output_dir timestamp dbsOut).1 <;>
      simp [backup_databases_core, create_zip_archive, h0]
  · intro hio hcz h0
    subst hio; subst hcz
    simp only [core_summarySucceeded] at h0
    simp [backup_databases_core, create_zip_archive, h0]
  · intro r' hr'
    rw [backup_databases_eq_some output_dir timestamp zip_filename dbsOut hne
      create_zip ioError files true] at hr'
    have h := Option.some.inj hr'
    subst h
    exact ⟨rfl, rfl, rfl, rfl⟩

/-- C3 (counterexample): with the dump utility absent and two selected
databases, the orchestrator performs two utility invocations — one per
database — so the utility invocation IS retried for the remaining database,
contradicting the claim's "without retrying the utility invocation". -/
theorem C3_reinvokes_missing_tool :
    (backup_databases "backups" "20250101_000000"
        [("alpha", DumpOutcome.toolNotInstalled), ("beta", DumpOutcome.toolNotInstalled)]
        false false [] true "jan.zip").map (fun r => invocationCount r.events) =
      some 2 ∧ ¬ (2 : Nat) ≤ 1 :=
  ⟨rfl, by decide⟩

/-- C3 (amended): when the dump utility is absent every attempt fails with
the distinct tool-not-installed reason, applied uniformly (zero successes,
every database in the failed list, the distinct message printed for each);
the orchestrator does not retry any single database, but it does re-invoke
the utility once for each remaining database (exactly one invocation per
database). -/
theorem C3_tool_missing_uniform (output_dir timestamp zip_filename : String)
    (dbs : List String) (hne : dbs ≠ []) (create_zip ioError rmtreeOk : Bool)
    (files : List (List String)) :
    ∃ r, backup_databases output_dir timestamp
        (dbs.map fun d => (d, DumpOutcome.toolNotInstalled)) create_zip ioError files
        rmtreeOk zip_filename = some r ∧
      r.summarySucceeded = 0 ∧
      r.summaryFailedNames = dbs ∧
      invocationCount r.events = dbs.length ∧
      ∀ db ∈ dbs, Event.errToolMissing db ∈ r.events := by
  have hne' : dbs.map (fun d => (d, DumpOutcome.toolNotInstalled)) ≠ [] := by
    simp [hne]
  refine ⟨_, backup_databases_eq_some output_dir timestamp zip_filename _ hne'
      create_zip ioError files rmtreeOk, ?_, ?_, ?_, ?_⟩
  · rw [core_summarySucceeded]
    exact (backupLoop_toolMissing output_dir timestamp dbs).1
  · rw [core_summaryFailedNames]
    exact (backupLoop_toolMissing output_dir timestamp dbs).2
  · rw [core_events, backupLoop_invocations]
    exact List.length_map dbs _
  · intro db hdb
    rw [core_events]
    exact backupLoop_mem_errTool output_dir timestamp _ db
      (List.mem_map_of_mem _ hdb)

/-- C10: `run_mongodump` emits the `makedirs` for
`output_dir/timestamp/database` before the dump invocation, for every
outcome; consequently after any non-empty run every attempted database's
directory — and the timestamp directory itself, even when every dump
fails — has been created on disk. -/
theorem C10_makedirs_before_dump (output_dir timestamp zip_filename : String)
    (dbsOut : List (String × DumpOutcome)) (hne : dbsOut ≠ [])
    (create_zip ioError rmtreeOk : Bool) (files : List (List String)) :
    (∀ db outcome, ∃ rest, (run_mongodump output_dir timestamp db outcome).2 =
        Event.makedirs [output_dir, timestamp, db] :: Event.invokeDump db :: rest) ∧
    ∃ r, backup_databases output_dir timestamp dbsOut create_zip ioError files rmtreeOk
        zip_filename = some r ∧
      (∀ p ∈ dbsOut, [output_dir, timestamp, p.1] ∈ dirsCreated r.events) ∧
      [output_dir, timestamp] ∈ dirsCreated r.events := by
  constructor
  · intro db outcome
    cases outcome
    · exact ⟨[], rfl⟩
    · exact ⟨[Event.errProcess db], rfl⟩
    · exact ⟨[Event.errToolMissing db], rfl⟩
  · refine ⟨_, backup_databases_eq_some output_dir timestamp zip_filename dbsOut hne
        create_zip ioError files rmtreeOk, ?_, ?_⟩
    · intro p hp
      rw [core_events]
      exact backupLoop_mem_db_dir output_dir timestamp dbsOut p hp
    · rw [core_events]
      exact backupLoop_mem_ts_dir output_dir timestamp dbsOut hne

/-- C1 witness: two databases of which the second dump fails, with
archiving requested and succeeding. -/
theorem C1_backup_summary_witness :
    ∃ r, backup_databases "backups" "20250101_000000"
        [("a", DumpOutcome.success), ("b", DumpOutcome.processFailed)] true false [] true
        "jan.zip" = some r ∧
      invokedDbs r.events =
        [("a", DumpOutcome.success), ("b", DumpOutcome.processFailed)].map Prod.fst ∧
      r.summaryAttempted =
        [("a", DumpOutcome.success), ("b", DumpOutcome.processFailed)].length ∧
      r.summarySucceeded =
        [("a", DumpOutcome.success), ("b", DumpOutcome.processFailed)].countP
          (fun p => p.2 == DumpOutcome.success) ∧
      r.summaryFailedNames =
        ([("a", DumpOutcome.success), ("b", DumpOutcome.processFailed)].filter
          fun p => ! (p.2 == DumpOutcome.success)).map Prod.fst ∧
      (∀ pth, r.zip_path = some pth → r.summaryLocation = pth) ∧
      (r.zip_path = none →
        r.summaryLocation = backup_dir_path "backups" "20250101_000000") :=
  C1_backup_summary "backups" "20250101_000000" "jan.zip"
    [("a", DumpOutcome.success), ("b", DumpOutcome.processFailed)]
    (List.cons_ne_nil _ _) true false true []

/-- C2 witness: one successful database, archiving requested but hitting an
I/O error, and a deletion that would fail. -/
theorem C2_archive_cleanup_witness :
    ∃ r, backup_databases "backups" "ts" [("a", DumpOutcome.success)] true true [] false
        "jan.zip" = some r ∧
      r.rmtreeInvoked = (true && decide (0 < r.summarySucceeded) && !true) ∧
      r.dirRemoved = (r.rmtreeInvoked && false) ∧
      r.cleanupWarning = (r.rmtreeInvoked && !false) ∧
      (true = true → r.zip_path = none ∧ r.rmtreeInvoked = false ∧
        r.dirRemoved = false) ∧
      (true = true → true = true → 0 < r.summarySucceeded →
        r.zipErrorReported = true) ∧
      ∀ r', backup_databases "backups" "ts" [("a", DumpOutcome.success)] true true []
          true "jan.zip" = some r' →
        r.summarySucceeded = r'.summarySucceeded ∧
        r.summaryFailedNames = r'.summaryFailedNames ∧
        r.summaryAttempted = r'.summaryAttempted ∧
        r.summaryLocation = r'.summaryLocation :=
  C2_archive_cleanup "backups" "ts" "jan.zip" [("a", DumpOutcome.success)]
    (List.cons_ne_nil _ _) true true false []

/-- C3 witness: two databases with the dump utility absent. -/
theorem C3_tool_missing_uniform_witness :
    ∃ r, backup_databases "backups" "ts"
        ((["a", "b"] : List String).map fun d => (d, DumpOutcome.toolNotInstalled))
        false false [] true "jan.zip" = some r ∧
      r.summarySucceeded = 0 ∧
      r.summaryFailedNames = ["a", "b"] ∧
      invocationCount r.events = (["a", "b"] : List String).length ∧
      ∀ db ∈ (["a", "b"] : List String), Event.errToolMissing db ∈ r.events :=
  C3_tool_missing_uniform "backups" "ts" "jan.zip" ["a", "b"]
    (List.cons_ne_nil _ _) false false true []

/-- C10 witness: one database whose dump fails with a nonzero exit. -/
theorem C10_makedirs_before_dump_witness :
    (∀ db outcome, ∃ rest, (run_mongodump "backups" "ts" db outcome).2 =
        Event.makedirs ["backups", "ts", db] :: Event.invokeDump db :: rest) ∧
    ∃ r, backup_databases "backups" "ts" [("a", DumpOutcome.processFailed)] false false
        [] true "jan.zip" = some r ∧
      (∀ p ∈ [("a", DumpOutcome.processFailed)],
        ["backups", "ts", p.1] ∈ dirsCreated r.events) ∧
      ["backups", "ts"] ∈ dirsCreated r.events :=
  C10_makedirs_before_dump "backups" "ts" "jan.zip" [("a", DumpOutcome.processFailed)]
    (List.cons_ne_nil _ _) false false true []

/-! ## Filename Generator claim -/

/-- C8: for every valid wall-clock reading, the code's 12-hour if-chain
produces exactly the spec's description — hour 0 becomes 12 am, hour 12
becomes 12 pm, every other hour maps modulo 12 with am exactly when
hour < 12 — and the minute field is always two digits. -/
theorem C8_filename_refinement (month day year hour minute : Nat)
    (hh : hour < 24) (hm : minute < 60) :
    generate_human_readable_filename month day year hour minute =
      filenameSpec month day year hour minute ∧
    (pad2 minute).length = 2 := by
  constructor
  · interval_cases hour <;> rfl
  · interval_cases minute <;> rfl

/-- C8 witness: July 4th 2025 at 13:05 — hour 13 renders as 1 pm and
minute 5 is zero-padded. -/
theorem C8_filename_refinement_witness :
    generate_human_readable_filename 7 4 2025 13 5 = filenameSpec 7 4 2025 13 5 ∧
    (pad2 5).length = 2 :=
  C8_filename_refinement 7 4 2025 13 5 (by decide) (by decide)

/-! ## Rendering claim -/

/-- C5: evaluation at a failing input.  With terminal width 10 — narrower
than the 33-character header — the very first `addstr` of the frame places
the header at `x = (10 - 33) // 2 = -12`; curses raises an error for the
out-of-window coordinate, so the renderer crashes instead of truncating
this line, contradicting the claim that every line is truncated with no
wrap or error. -/
theorem C5_narrow_width_crashes :
    (renderOps 20 10 ["db1"] [true] 0).head? = some (AddStr.mk 0 (-12) title) ∧
    addstrCrashes 20 10 (AddStr.mk 0 (-12) title) = true ∧
    rendersWithoutCrashOrWrap 20 10 ["db1"] [true] 0 = false :=
  ⟨rfl, rfl, rfl⟩

end MongoBackup
